import Mathlib

/-!
# Verification of `py_omop2neo4j_lpg`

A shallow embedding, in Lean 4, of the string sanitizers (`utils.py`), the
bulk transformer (`transformation.py`) and the online loader
(`loading.py`) of the `py_omop2neo4j_lpg` repository, together with
theorems settling the specification claims about them.

Conventions:
* Python strings are Lean `String`s; a value that may be Python `None` is an
  `Option String`.
* `pandas` data frames read with `dtype=str, keep_default_na=False` are lists
  of rows, a row being an ordered association list of column name to string
  value.
* The file system touched by the transformer is an explicit association list
  from path to CSV file content (a list of CSV lines, each a list of cells).
-/

namespace OmopNeo4j

/-! ## Sanitizers (`utils.py`) -/

/-- The character class `[A-Za-z0-9]` of the regular expressions in
`utils.py` (ASCII letters and digits). -/
def isAlnum (c : Char) : Bool :=
  (('A' ≤ c && c ≤ 'Z') || ('a' ≤ c && c ≤ 'z')) || ('0' ≤ c && c ≤ '9')

/-- Python's `str.upper` restricted to one character.  Only ASCII
alphanumerics and `_` ever reach the uppercasing steps of the sanitizers
(every other character has been split away or replaced beforehand), so the
ASCII table is a faithful model. -/
def pyUpperChar (c : Char) : Char :=
  match c with
  | 'a' => 'A' | 'b' => 'B' | 'c' => 'C' | 'd' => 'D' | 'e' => 'E'
  | 'f' => 'F' | 'g' => 'G' | 'h' => 'H' | 'i' => 'I' | 'j' => 'J'
  | 'k' => 'K' | 'l' => 'L' | 'm' => 'M' | 'n' => 'N' | 'o' => 'O'
  | 'p' => 'P' | 'q' => 'Q' | 'r' => 'R' | 's' => 'S' | 't' => 'T'
  | 'u' => 'U' | 'v' => 'V' | 'w' => 'W' | 'x' => 'X' | 'y' => 'Y'
  | 'z' => 'Z'
  | c => c

/-- Model of `re.split(r"[^A-Za-z0-9]+", s)`, written as one structural recursion.
`acc` holds the (reversed) segment being collected; `sep` records whether we
are inside a run of separator characters, so that a trailing run yields the
trailing empty segment that `re.split` produces. -/
def reSplitGo : List Char → List Char → Bool → List (List Char)
  | [], acc, sep => if sep then [acc.reverse, []] else [acc.reverse]
  | c :: t, acc, sep =>
    if isAlnum c then
      if sep then acc.reverse :: reSplitGo t [c] false
      else reSplitGo t (c :: acc) false
    else reSplitGo t acc true

/-- Split a character list on each maximal run of non-alphanumeric
characters, keeping the empty boundary segments exactly as `re.split` does. -/
def reSplitNonAlnum (l : List Char) : List (List Char) :=
  reSplitGo l [] false

/-- Model of `word[0].upper() + word[1:] if word else ""` from
`standardize_label`. -/
def capitalizeFirst : List Char → List Char
  | [] => []
  | c :: t => pyUpperChar c :: t

/-- Embedding of `standardize_label` (`src/py_omop2neo4j_lpg/utils.py`,
lines 4-20): on `None` or the empty string return `""`; otherwise split on
runs of non-alphanumeric characters, upper-case only the first character of
each non-empty segment, and concatenate. -/
def standardize_label (s : Option String) : String :=
  match s with
  | none => ""
  | some str =>
    if str = "" then ""
    else ⟨((reSplitNonAlnum str.data).map capitalizeFirst).flatten⟩

/-- Replace each maximal run of characters satisfying `p` by the single
character `r`; the `inRun` flag makes the recursion structural.  With
`p = ¬ isAlnum` and `r = ' '` this is
`re.sub(r"[^A-Za-z0-9]+", " ", s)` from `standardize_reltype`. -/
def collapseGo (p : Char → Bool) (r : Char) : List Char → Bool → List Char
  | [], _ => []
  | c :: t, inRun =>
    if p c then
      if inRun then collapseGo p r t true else r :: collapseGo p r t true
    else c :: collapseGo p r t false

/-- Replace each maximal run of characters satisfying `p` by one `r`. -/
def collapseRuns (p : Char → Bool) (r : Char) (l : List Char) : List Char :=
  collapseGo p r l false

/-- The whitespace characters stripped by Python's `str.strip()` (ASCII
part; after the substitution step of `standardize_reltype` the only
whitespace that can occur is `' '`). -/
def isPySpace (c : Char) : Bool :=
  c = ' ' || c = '\t' || c = '\n' || c = '\r' || c = '\x0b' || c = '\x0c'

/-- Python `str.strip()`: drop whitespace from both ends. -/
def pyStrip (l : List Char) : List Char :=
  (((l.dropWhile isPySpace).reverse.dropWhile isPySpace)).reverse

/-- Embedding of `standardize_reltype` (`src/py_omop2neo4j_lpg/utils.py`,
lines 23-37): on `None` or the empty string return `""`; otherwise replace
each run of non-alphanumerics by one space, strip, turn the remaining
spaces into underscores and upper-case. -/
def standardize_reltype (s : Option String) : String :=
  match s with
  | none => ""
  | some str =>
    if str = "" then ""
    else
      let collapsed := collapseRuns (fun c => !(isAlnum c)) ' ' str.data
      let stripped := pyStrip collapsed
      ⟨(stripped.map (fun c => if c = ' ' then '_' else c)).map pyUpperChar⟩

/-- The type-derivation expression of the relationship-loading statement
generated by `get_loading_queries` (`src/py_omop2neo4j_lpg/loading.py`,
lines 250-252):

`toupper(apoc.text.replace(row.relationship_id, '[^A-Za-z0-9_]+', '_'))`.

`apoc.text.replace` is a Java-regex `replaceAll`, so each maximal run of
characters outside `[A-Za-z0-9_]` — note that, unlike the bulk path's
regex, underscores are *excluded* from the class — is replaced by a single
underscore, and the Cypher `toupper` upper-cases the result (which by then
consists of ASCII alphanumerics and underscores only). -/
def cypherReltype (s : String) : String :=
  ⟨(collapseRuns (fun c => !(isAlnum c || c = '_')) '_' s.data).map pyUpperChar⟩


/-! ## Data frames and the file system (`transformation.py`) -/

/-- One data-frame row, read with `dtype=str, keep_default_na=False`: an
ordered association list from column name to string value. -/
abbrev Row := List (String × String)

/-- The value of a column in a row (`df[col]`, rowwise). -/
def Row.get (r : Row) (col : String) : String :=
  match r.find? (fun p => p.1 = col) with
  | some p => p.2
  | none => ""

/-- Model of `df.rename(columns=m)`: rename, in place, every column that appears in
`m`. -/
def Row.rename (r : Row) (m : List (String × String)) : Row :=
  r.map (fun p =>
    match m.find? (fun q => q.1 = p.1) with
    | some q => (q.2, p.2)
    | none => p)

/-- Model of `df[cols]`: reindex the row to exactly the given columns, in that
order. -/
def Row.select (r : Row) (cols : List String) : Row :=
  cols.map (fun c => (c, r.get c))

/-- The cell values of a row, in column order. -/
def Row.values (r : Row) : List String := r.map Prod.snd

/-- The column names of a row, in order. -/
def Row.names (r : Row) : List String := r.map Prod.fst

/-- A CSV file on disk: a list of lines, each a list of cells. -/
abbrev CsvFile := List (List String)

/-- The file system touched by the transformer: an association list from
path to CSV content, together with the set of directories created. -/
structure FS where
  files : List (String × CsvFile)
  dirs : List String
deriving DecidableEq

/-- Read a file. -/
def FS.read (fs : FS) (p : String) : Option CsvFile :=
  (fs.files.find? (fun q => q.1 = p)).map Prod.snd

/-- Model of `os.path.exists`. -/
def FS.fileExists (fs : FS) (p : String) : Bool :=
  fs.files.any (fun q => q.1 = p)

/-- Model of `os.remove`. -/
def FS.remove (fs : FS) (p : String) : FS :=
  { fs with files := fs.files.filter (fun q => q.1 ≠ p) }

/-- Overwrite (or create) a file, as `df.to_csv(path)` does. -/
def FS.writeFile (fs : FS) (p : String) (content : CsvFile) : FS :=
  { fs with files := fs.files.filter (fun q => q.1 ≠ p) ++ [(p, content)] }

/-- Append lines to a file, creating it when absent, as
`df.to_csv(path, mode="a")` does. -/
def FS.appendFile (fs : FS) (p : String) (lines : CsvFile) : FS :=
  match fs.read p with
  | some old => fs.writeFile p (old ++ lines)
  | none => fs.writeFile p lines

/-- Model of `os.makedirs(d, exist_ok=True)`. -/
def FS.makedirs (fs : FS) (d : String) : FS :=
  if fs.dirs.contains d then fs else { fs with dirs := fs.dirs ++ [d] }

/-- Model of `pd.read_csv(path, dtype=str, keep_default_na=False)`: the first line
is the header, each further line is one row. -/
def parseCsv (content : CsvFile) : List Row :=
  match content with
  | [] => []
  | hdr :: data => data.map (fun vals => hdr.zip vals)

/-- The lines `df.to_csv(…, header=first, index=False)` emits for a list of
rows: the column-name line when `first` is set (taken from the first row —
for a non-empty frame this is the frame's column list), then one line of
values per row. -/
def csvLines (first : Bool) (rows : List Row) : CsvFile :=
  (if first then
    match rows with
    | r :: _ => [r.names]
    | [] => []
   else []) ++ rows.map Row.values

/-- Model of `df.to_csv(path, index=False)`: header plus all rows, overwriting. -/
def csvFull (rows : List Row) : CsvFile := csvLines true rows

/-- Prefix test on lists, written to reduce inside the kernel. -/
def listIsPrefixOf : List Char → List Char → Bool
  | [], _ => true
  | _ :: _, [] => false
  | a :: as, b :: bs => a = b && listIsPrefixOf as bs

/-- Infix (contiguous-substring) test on lists. -/
def listIsInfix (n : List Char) : List Char → Bool
  | [] => n.isEmpty
  | b :: t => listIsPrefixOf n (b :: t) || listIsInfix n t

/-- Python's `in` operator on strings: substring containment. -/
def pyIn (needle hay : String) : Bool := listIsInfix needle.data hay.data

/-- Model of `str.startswith` over the underlying character lists. -/
def strStartsWith (s pre : String) : Bool := listIsPrefixOf pre.data s.data

/-- Model of `str.endswith` over the underlying character lists. -/
def strEndsWith (s suf : String) : Bool :=
  listIsPrefixOf suf.data.reverse s.data.reverse

/-- Drop the first `n` characters of a string. -/
def strDrop (s : String) (n : Nat) : String := ⟨s.data.drop n⟩

/-! ## The bulk transformer (`transformation.py`) -/

/-- The `paths` dictionary of `prepare_for_bulk_import`
(`transformation.py`, lines 41-57), in insertion order. -/
def pathsDict (source_dir import_dir : String) : List (String × String) :=
  [("domain_in", source_dir ++ "/domain.csv"),
   ("vocabulary_in", source_dir ++ "/vocabulary.csv"),
   ("concept_in", source_dir ++ "/concepts_optimized.csv"),
   ("relationship_in", source_dir ++ "/concept_relationship.csv"),
   ("ancestor_in", source_dir ++ "/concept_ancestor.csv"),
   ("domain_nodes", import_dir ++ "/nodes_domain.csv"),
   ("vocabulary_nodes", import_dir ++ "/nodes_vocabulary.csv"),
   ("concept_nodes", import_dir ++ "/nodes_concept.csv"),
   ("in_domain_rels", import_dir ++ "/rels_in_domain.csv"),
   ("from_vocab_rels", import_dir ++ "/rels_from_vocabulary.csv"),
   ("semantic_rels", import_dir ++ "/rels_semantic.csv"),
   ("ancestor_rels", import_dir ++ "/rels_ancestor.csv")]

/-- The clear-previous-files loop (`transformation.py`, lines 59-63):
`for key, path in paths.items(): if "in" not in key and
os.path.exists(path): os.remove(path)`. -/
def clearPreviousFiles (fs : FS) (paths : List (String × String)) : FS :=
  paths.foldl
    (fun acc kp =>
      if !(pyIn "in" kp.1) && acc.fileExists kp.2 then acc.remove kp.2 else acc)
    fs

/-- Model of `glob(os.path.join(source_dir, "*.csv"))`: the files directly inside
`source_dir` whose name ends in `.csv`. -/
def globCsv (fs : FS) (dir : String) : List String :=
  (fs.files.map Prod.fst).filter (fun p =>
    strStartsWith p (dir ++ "/") && strEndsWith p ".csv" &&
      !(pyIn "/" (strDrop p (dir.length + 1))))

/-- The `concept_cols` rename dictionary (`transformation.py`,
lines 82-91), in insertion order. -/
def concept_cols : List (String × String) :=
  [("concept_id", ":ID"),
   ("concept_name", "name:string"),
   ("concept_code", "concept_code:string"),
   ("standard_concept", "standard_concept:string"),
   ("invalid_reason", "invalid_reason:string"),
   ("valid_start_date", "valid_start_date:date"),
   ("valid_end_date", "valid_end_date:date"),
   ("synonyms", "synonyms:string[]")]

/-- The `:LABEL` value of one concept row (`transformation.py`,
lines 100-101): `"Concept;" + standardize_label(domain_id)`, with
`";Standard"` appended exactly when `standard_concept == "S"`. -/
def conceptLabel (r : Row) : String :=
  let base := "Concept;" ++ standardize_label (some (r.get "domain_id"))
  if r.get "standard_concept" = "S" then base ++ ";Standard" else base

/-- One emitted concept node row (`transformation.py`, lines 99-107): add
the `:LABEL` column, rename the scalar columns via `concept_cols`, then
select `list(concept_cols.values()) + [":LABEL"]`. -/
def conceptNodeRow (r : Row) : Row :=
  let labelled : Row := r ++ [(":LABEL", conceptLabel r)]
  let renamed := labelled.rename concept_cols
  renamed.select (concept_cols.map Prod.snd ++ [":LABEL"])

/-- One emitted `IN_DOMAIN` edge row (`transformation.py`, lines 113-118),
built from the original (pre-rename) chunk. -/
def inDomainRow (r : Row) : Row :=
  ((r.select ["concept_id", "domain_id"]).rename
      [("concept_id", ":START_ID"), ("domain_id", ":END_ID")])
    ++ [(":TYPE", "IN_DOMAIN")]

/-- One emitted `FROM_VOCABULARY` edge row (`transformation.py`,
lines 123-129), built from the original (pre-rename) chunk. -/
def fromVocabularyRow (r : Row) : Row :=
  ((r.select ["concept_id", "vocabulary_id"]).rename
      [("concept_id", ":START_ID"), ("vocabulary_id", ":END_ID")])
    ++ [(":TYPE", "FROM_VOCABULARY")]

/-- One emitted semantic relationship row (`transformation.py`,
lines 143-154): rename endpoints and typed columns, derive `:TYPE` by
sanitizing `relationship_id`, then drop `relationship_id`. -/
def semanticRelRow (r : Row) : Row :=
  let renamed := r.rename
    [("concept_id_1", ":START_ID"), ("concept_id_2", ":END_ID"),
     ("valid_start_date", "valid_start_date:date"),
     ("valid_end_date", "valid_end_date:date"),
     ("invalid_reason", "invalid_reason:string")]
  (renamed ++ [(":TYPE", standardize_reltype (some (r.get "relationship_id")))]).filter
    (fun p => p.1 ≠ "relationship_id")

/-- One emitted ancestor relationship row (`transformation.py`,
lines 167-176). -/
def ancestorRelRow (r : Row) : Row :=
  r.rename
    [("descendant_concept_id", ":START_ID"), ("ancestor_concept_id", ":END_ID"),
     ("min_levels_of_separation", "min_levels:int"),
     ("max_levels_of_separation", "max_levels:int")]
    ++ [(":TYPE", "HAS_ANCESTOR")]

/-- One emitted domain node row (`transformation.py`, lines 68-71). -/
def domainNodeRow (r : Row) : Row :=
  (r ++ [(":LABEL", "Domain")]).rename [("domain_id", ":ID")]

/-- One emitted vocabulary node row (`transformation.py`, lines 74-77). -/
def vocabularyNodeRow (r : Row) : Row :=
  (r ++ [(":LABEL", "Vocabulary")]).rename [("vocabulary_id", ":ID")]

/-- Split a list into consecutive chunks of `n` elements (the semantics of
`pd.read_csv(chunksize=n)` for `n ≥ 1`), written as a structural recursion
on the remaining list with a remaining-capacity counter. -/
def chunkGo (n : Nat) : List α → List α → Nat → List (List α)
  | [], acc, _ => if acc.isEmpty then [] else [acc.reverse]
  | a :: t, acc, r =>
    match r with
    | 0 => acc.reverse :: chunkGo n t [a] (n - 1)
    | Nat.succ r => chunkGo n t (a :: acc) r

/-- The chunks of size `n` of a list. -/
def chunkList (n : Nat) (l : List α) : List (List α) := chunkGo n l [] n

/-- The concept loop of `prepare_for_bulk_import` (`transformation.py`,
lines 92-134): per chunk, append the node rows, the `IN_DOMAIN` rows and
the `FROM_VOCABULARY` rows to their three files, writing each file's header
only with the first chunk; the edge rows are built from the untransformed
`original_chunk`. -/
def writeConceptChunks (import_dir : String) : FS → List (List Row) → Bool → FS
  | fs, [], _ => fs
  | fs, c :: rest, first =>
    let fs := fs.appendFile (import_dir ++ "/nodes_concept.csv")
      (csvLines first (c.map conceptNodeRow))
    let fs := fs.appendFile (import_dir ++ "/rels_in_domain.csv")
      (csvLines first (c.map inDomainRow))
    let fs := fs.appendFile (import_dir ++ "/rels_from_vocabulary.csv")
      (csvLines first (c.map fromVocabularyRow))
    writeConceptChunks import_dir fs rest false

/-- The chunked single-file loops of `prepare_for_bulk_import`
(`transformation.py`, lines 139-158 and 163-180): per chunk, transform each
row and append, writing the header only with the first chunk. -/
def writeChunkedRel (transform : Row → Row) (path : String) :
    FS → List (List Row) → Bool → FS
  | fs, [], _ => fs
  | fs, c :: rest, first =>
    writeChunkedRel transform path
      (fs.appendFile path (csvLines first (c.map transform))) rest false

/-- The generated `neo4j-admin` command string (`transformation.py`,
lines 188-223).  On a POSIX path separator the final
`replace(os.path.sep, "/")` is the identity. -/
def neo4jAdminCommand : String :=
  let node_files := ["nodes_domain.csv", "nodes_vocabulary.csv", "nodes_concept.csv"]
  let rel_files :=
    ["rels_in_domain.csv", "rels_from_vocabulary.csv", "rels_semantic.csv",
     "rels_ancestor.csv"]
  let command_parts :=
    ["neo4j-admin database import full \\",
     "  --delimiter=',' \\",
     "  --array-delimiter='|' \\",
     "  --multiline-fields=true \\"]
    ++ node_files.map (fun f => "  --nodes='" ++ f ++ "' \\")
    ++ rel_files.map (fun f => "  --relationships='" ++ f ++ "' \\")
    ++ ["  neo4j"]
  String.intercalate "\n" command_parts

/-- Embedding of `prepare_for_bulk_import` (`transformation.py`,
lines 21-226) over the explicit file system.  The result is `ok none` when
no source CSV is present (Python returns `None`), `ok (some command)` on
success, and `error` when an input file that `pandas` would open is absent
(Python raises); the returned `FS` reflects every write performed up to
that point. -/
def prepare_for_bulk_import (chunk_size : Nat) (import_dir source_dir : String)
    (fs0 : FS) : Except String (Option String) × FS :=
  let csv_files := globCsv fs0 source_dir
  if csv_files.isEmpty then (.ok none, fs0)
  else
    let fs := fs0.makedirs import_dir
    let paths := pathsDict source_dir import_dir
    let fs := clearPreviousFiles fs paths
    match fs.read (source_dir ++ "/domain.csv") with
    | none => (.error "FileNotFoundError: domain.csv", fs)
    | some domainFile =>
      let fs := fs.writeFile (import_dir ++ "/nodes_domain.csv")
        (csvFull ((parseCsv domainFile).map domainNodeRow))
      match fs.read (source_dir ++ "/vocabulary.csv") with
      | none => (.error "FileNotFoundError: vocabulary.csv", fs)
      | some vocabFile =>
        let fs := fs.writeFile (import_dir ++ "/nodes_vocabulary.csv")
          (csvFull ((parseCsv vocabFile).map vocabularyNodeRow))
        match fs.read (source_dir ++ "/concepts_optimized.csv") with
        | none => (.error "FileNotFoundError: concepts_optimized.csv", fs)
        | some conceptFile =>
          let fs := writeConceptChunks import_dir fs
            (chunkList chunk_size (parseCsv conceptFile)) true
          match fs.read (source_dir ++ "/concept_relationship.csv") with
          | none => (.error "FileNotFoundError: concept_relationship.csv", fs)
          | some relFile =>
            let fs := writeChunkedRel semanticRelRow
              (import_dir ++ "/rels_semantic.csv") fs
              (chunkList chunk_size (parseCsv relFile)) true
            match fs.read (source_dir ++ "/concept_ancestor.csv") with
            | none => (.error "FileNotFoundError: concept_ancestor.csv", fs)
            | some ancFile =>
              let fs := writeChunkedRel ancestorRelRow
                (import_dir ++ "/rels_ancestor.csv") fs
                (chunkList chunk_size (parseCsv ancFile)) true
              (.ok (some neo4jAdminCommand), fs)

/-- One row of `concepts_optimized.csv` in the schema produced by the
extraction query (`extraction.py`, lines 22-40); every value is a string,
as read with `dtype=str, keep_default_na=False`. -/
structure ConceptSourceRow where
  concept_id : String
  concept_name : String
  domain_id : String
  vocabulary_id : String
  concept_class_id : String
  standard_concept : String
  concept_code : String
  valid_start_date : String
  valid_end_date : String
  invalid_reason : String
  synonyms : String
deriving DecidableEq

/-- The association-list form of a source concept row, columns in the
extraction order. -/
def ConceptSourceRow.toRow (c : ConceptSourceRow) : Row :=
  [("concept_id", c.concept_id),
   ("concept_name", c.concept_name),
   ("domain_id", c.domain_id),
   ("vocabulary_id", c.vocabulary_id),
   ("concept_class_id", c.concept_class_id),
   ("standard_concept", c.standard_concept),
   ("concept_code", c.concept_code),
   ("valid_start_date", c.valid_start_date),
   ("valid_end_date", c.valid_end_date),
   ("invalid_reason", c.invalid_reason),
   ("synonyms", c.synonyms)]

/-- A concrete non-standard concept row with domain `"Drug/Device"`. -/
def painKiller : ConceptSourceRow :=
  ⟨"1003", "Pain Killer", "Drug/Device", "RxNorm", "Ingredient", "", "C3",
   "2000-01-01", "2099-12-31", "", "pain reliever|analgesic"⟩

/-- A concrete standard concept row with domain `"Drug"`. -/
def aspirin : ConceptSourceRow :=
  ⟨"1001", "Aspirin", "Drug", "RxNorm", "Ingredient", "S", "A1",
   "2000-01-01", "2099-12-31", "", "acetylsalicylic acid"⟩

/-- A concrete export directory holding the five extracted CSVs, with one
data row each (mirroring the repository's own test fixture). -/
def sampleSourceFS : FS :=
  { files :=
      [("export/domain.csv",
        [["domain_id", "domain_name", "domain_concept_id"],
         ["Drug", "Drug", "1"]]),
       ("export/vocabulary.csv",
        [["vocabulary_id", "vocabulary_name", "vocabulary_reference",
          "vocabulary_version", "vocabulary_concept_id"],
         ["RxNorm", "RxNorm", "ref1", "v1", "101"]]),
       ("export/concepts_optimized.csv",
        [["concept_id", "concept_name", "domain_id", "vocabulary_id",
          "concept_class_id", "standard_concept", "concept_code",
          "valid_start_date", "valid_end_date", "invalid_reason", "synonyms"],
         ["1001", "Aspirin", "Drug", "RxNorm", "Ingredient", "S", "A1",
          "2000-01-01", "2099-12-31", "", ""]]),
       ("export/concept_relationship.csv",
        [["concept_id_1", "concept_id_2", "relationship_id",
          "valid_start_date", "valid_end_date", "invalid_reason"],
         ["1001", "1002", "maps to", "2000-01-01", "2099-12-31", ""]]),
       ("export/concept_ancestor.csv",
        [["descendant_concept_id", "ancestor_concept_id",
          "min_levels_of_separation", "max_levels_of_separation"],
         ["1001", "1003", "1", "1"]])],
    dirs := [] }

/-! ## The online loader (`loading.py`) -/

/-- The default `LOAD_CSV_BATCH_SIZE` (`config.py`, line 31). -/
def LOAD_CSV_BATCH_SIZE : Nat := 10000

/-- Model of `get_file_uri` inside `get_loading_queries` (`loading.py`,
lines 160-179) for the default `EXPORT_DIR = "export"`: the path relative
to the mount point is just the file name, and URL-encoding leaves the
names of the five extracted CSVs unchanged, giving `file:///<name>`. -/
def get_file_uri (filename : String) : String := "file:///" ++ filename

/-- The five graph-mutation statements built by `get_loading_queries`
(`loading.py`, lines 181-273), abstracted from their Cypher text: each
constructor records the statement's source-file URI, and the three
row-heavy statements also record the `IN TRANSACTIONS OF … ROWS` group
size.  The label and relationship-type derivations embedded in the concept
and relationship statements are modelled separately (see
`cypherReltype`). -/
inductive CypherQuery where
  | loadDomains (uri : String)
  | loadVocabularies (uri : String)
  | loadConcepts (uri : String) (batchSize : Nat)
  | loadRelationships (uri : String) (batchSize : Nat)
  | loadAncestors (uri : String) (batchSize : Nat)
deriving DecidableEq

/-- Embedding of `get_loading_queries` (`loading.py`, lines 157-281): the
returned list, in the source's order. -/
def get_loading_queries (batch_size : Nat) : List CypherQuery :=
  [.loadDomains (get_file_uri "domain.csv"),
   .loadVocabularies (get_file_uri "vocabulary.csv"),
   .loadConcepts (get_file_uri "concepts_optimized.csv") batch_size,
   .loadRelationships (get_file_uri "concept_relationship.csv") batch_size,
   .loadAncestors (get_file_uri "concept_ancestor.csv") batch_size]

/-- Embedding of `_execute_queries` (`loading.py`, lines 36-47).  `run`
gives each statement's outcome at the store.  The result records the
statements actually attempted, in order, and the error propagated to the
caller (`none` when nothing was raised): each statement is attempted in
sequence; the first failure is re-raised immediately — unless
`ignore_errors` is set, in which case it is logged and swallowed. -/
def execute_queries (run : CypherQuery → Except String Unit)
    (ignore_errors : Bool) : List CypherQuery → List CypherQuery × Option String
  | [] => ([], none)
  | q :: rest =>
    match run q with
    | .ok _ =>
      let r := execute_queries run ignore_errors rest
      (q :: r.1, r.2)
    | .error msg =>
      if ignore_errors then
        let r := execute_queries run ignore_errors rest
        (q :: r.1, r.2)
      else ([q], some msg)

/-- The effects `run_load_csv` can have on the graph store, in order. -/
inductive LoadAction where
  | connect
  | clearDatabase
  | createConstraints
  | runQuery (q : CypherQuery)
  | closeConnection
deriving DecidableEq

/-- Embedding of `run_load_csv` (`loading.py`, lines 112-154).  `csvFiles`
is the glob result over the export directory; `clearResult` and
`constraintsResult` parametrize the outcomes of `clear_database` and
`create_constraints_and_indexes`; `run` executes one loading statement.
The result is the overall outcome together with the ordered trace of
effects against the graph store (the `finally` block closes the driver on
every path that opened it). -/
def run_load_csv (csvFiles : List String) (batch_size : Option Nat)
    (clearResult constraintsResult : Except String Unit)
    (run : CypherQuery → Except String Unit) :
    Except String Unit × List LoadAction :=
  if csvFiles.isEmpty then
    (.error
      "No CSV files found in the export directory. Please run the 'extract' command first.",
      [])
  else
    match clearResult with
    | .error e => (.error e, [.connect, .clearDatabase, .closeConnection])
    | .ok _ =>
      match constraintsResult with
      | .error e =>
        (.error e, [.connect, .clearDatabase, .createConstraints, .closeConnection])
      | .ok _ =>
        let effective := batch_size.getD LOAD_CSV_BATCH_SIZE
        let r := execute_queries run false (get_loading_queries effective)
        match r.2 with
        | some e =>
          (.error e,
            [.connect, .clearDatabase, .createConstraints]
              ++ r.1.map .runQuery ++ [.closeConnection])
        | none =>
          (.ok (),
            [.connect, .clearDatabase, .createConstraints]
              ++ r.1.map .runQuery ++ [.closeConnection])

/-- A store stub for the C9 witness: the concept statement fails, every
other statement succeeds. -/
def runConceptsFail : CypherQuery → Except String Unit
  | .loadConcepts _ _ => .error "constraint violation"
  | _ => .ok ()

/-! ## Supporting lemmas and claim theorems -/

/-- Every character of `collapseGo p r l b` is either the replacement `r`
or a kept character, i.e. one on which `p` is false. -/
theorem collapseGo_mem {p : Char → Bool} {r c : Char} :
    ∀ (l : List Char) (b : Bool), c ∈ collapseGo p r l b → c = r ∨ p c = false := by
  intro l
  induction l with
  | nil => intro b h; simp [collapseGo] at h
  | cons a t ih =>
    intro b h
    simp only [collapseGo] at h
    split at h
    · split at h
      · exact ih true h
      · rcases List.mem_cons.mp h with h | h
        · exact Or.inl h
        · exact ih true h
    · rcases List.mem_cons.mp h with h | h
      · subst h; rename_i hp; exact Or.inr (by simpa using hp)
      · exact ih false h

/-- The last character surviving `pyStrip` is not whitespace. -/
theorem pyStrip_getLast?_not_space {l : List Char} {c : Char}
    (h : (pyStrip l).getLast? = some c) : isPySpace c = false := by
  unfold pyStrip at h
  rw [List.getLast?_reverse] at h
  have hd := List.head?_dropWhile_not isPySpace ((l.dropWhile isPySpace).reverse)
  rw [h] at hd
  exact hd

/-- The first character surviving `pyStrip` is not whitespace. -/
theorem pyStrip_head?_not_space {l : List Char} {c : Char}
    (h : (pyStrip l).head? = some c) : isPySpace c = false := by
  unfold pyStrip at h
  rw [List.head?_reverse] at h
  obtain ⟨t, ht⟩ :=
    List.dropWhile_suffix (l := (l.dropWhile isPySpace).reverse) isPySpace
  by_cases hne : ((l.dropWhile isPySpace).reverse).dropWhile isPySpace = []
  · rw [hne] at h; simp at h
  · have h2 : ((l.dropWhile isPySpace).reverse).getLast? = some c := by
      rw [← ht, List.getLast?_append_of_ne_nil _ hne, h]
    rw [List.getLast?_reverse] at h2
    have hd := List.head?_dropWhile_not isPySpace l
    rw [h2] at hd
    exact hd

/-- Stripping only removes characters. -/
theorem mem_pyStrip {l : List Char} {c : Char} (h : c ∈ pyStrip l) : c ∈ l := by
  unfold pyStrip at h
  rw [List.mem_reverse] at h
  have h1 := List.Sublist.mem h (List.dropWhile_sublist isPySpace)
  rw [List.mem_reverse] at h1
  exact List.Sublist.mem h1 (List.dropWhile_sublist isPySpace)

/-- Uppercasing an alphanumeric character never produces an underscore. -/
theorem pyUpperChar_ne_underscore {c : Char} (h : isAlnum c = true) :
    pyUpperChar c ≠ '_' := by
  unfold pyUpperChar
  split
  all_goals first
    | decide
    | (intro hc; subst hc; exact absurd h (by decide))

/-- The result of `standardize_reltype` never begins or ends with an
underscore: the separator runs at the boundaries are collapsed to spaces and
then stripped, and the surviving boundary characters are alphanumeric. -/
theorem standardize_reltype_no_boundary_underscore (s : Option String) :
    (standardize_reltype s).data.head? ≠ some '_' ∧
      (standardize_reltype s).data.getLast? ≠ some '_' := by
  cases s with
  | none => simp [standardize_reltype]
  | some str =>
    by_cases hstr : str = ""
    · simp [standardize_reltype, hstr]
    · unfold standardize_reltype
      simp only [hstr, if_false]
      constructor
      · intro hcontra
        simp only [List.head?_map] at hcontra
        cases hh : (pyStrip (collapseRuns (fun c => !(isAlnum c)) ' ' str.data)).head? with
        | none => rw [hh] at hcontra; simp at hcontra
        | some c =>
          rw [hh] at hcontra
          simp only [Option.map_some', Option.some.injEq] at hcontra
          have hsp : isPySpace c = false := pyStrip_head?_not_space hh
          have hmem : c ∈ pyStrip (collapseRuns (fun c => !(isAlnum c)) ' ' str.data) :=
            List.mem_of_mem_head? (by rw [hh]; rfl)
          have hmem2 := mem_pyStrip hmem
          have halnum : isAlnum c = true := by
            rcases collapseGo_mem _ _ hmem2 with h | h
            · subst h; simp [isPySpace] at hsp
            · simpa using h
          have hc : c ≠ ' ' := by
            intro h; subst h; simp [isPySpace] at hsp
          rw [if_neg hc] at hcontra
          exact pyUpperChar_ne_underscore halnum hcontra
      · intro hcontra
        simp only [List.getLast?_map] at hcontra
        cases hh : (pyStrip (collapseRuns (fun c => !(isAlnum c)) ' ' str.data)).getLast? with
        | none => rw [hh] at hcontra; simp at hcontra
        | some c =>
          rw [hh] at hcontra
          simp only [Option.map_some', Option.some.injEq] at hcontra
          have hsp : isPySpace c = false := pyStrip_getLast?_not_space hh
          have hmem : c ∈ pyStrip (collapseRuns (fun c => !(isAlnum c)) ' ' str.data) :=
            List.mem_of_mem_getLast? (by rw [hh]; rfl)
          have hmem2 := mem_pyStrip hmem
          have halnum : isAlnum c = true := by
            rcases collapseGo_mem _ _ hmem2 with h | h
            · subst h; simp [isPySpace] at hsp
            · simpa using h
          have hc : c ≠ ' ' := by
            intro h; subst h; simp [isPySpace] at hsp
          rw [if_neg hc] at hcontra
          exact pyUpperChar_ne_underscore halnum hcontra

/-- C4: `standardize_label` returns `""` on `None` and on the empty string,
is total (it never raises), and otherwise splits on runs of
non-alphanumeric characters, upper-cases only the first character of each
non-empty segment and concatenates; in particular it maps
`"Drug/ingredient"` to `"DrugIngredient"`, `"mixedCASE"` to `"MixedCASE"`
and `"a b c"` to `"ABC"`. -/
theorem standardize_label_spec :
    standardize_label none = "" ∧
    standardize_label (some "") = "" ∧
    standardize_label (some "Drug/ingredient") = "DrugIngredient" ∧
    standardize_label (some "mixedCASE") = "MixedCASE" ∧
    standardize_label (some "a b c") = "ABC" ∧
    (∀ s : String, s ≠ "" →
      standardize_label (some s) =
        ⟨((reSplitNonAlnum s.data).map capitalizeFirst).flatten⟩) := by
  refine ⟨by decide, by decide, by decide, by decide, by decide, ?_⟩
  intro s hs
  simp [standardize_label, hs]

/-- Witness for the quantified clause of `standardize_label_spec` at the
concrete input `"Observation 2"`. -/
theorem standardize_label_spec_witness :
    standardize_label (some "Observation 2") =
      ⟨((reSplitNonAlnum "Observation 2".data).map capitalizeFirst).flatten⟩ :=
  standardize_label_spec.2.2.2.2.2 "Observation 2" (by decide)

/-- C3: `standardize_reltype` returns `""` on `None` and on the empty
string, maps `"maps to"` to `"MAPS_TO"`, `"ATC - ATC"` to `"ATC_ATC"` and
`"_leading_sep"` to `"LEADING_SEP"`, and no result ever begins or ends with
an underscore. -/
theorem standardize_reltype_spec :
    standardize_reltype none = "" ∧
    standardize_reltype (some "") = "" ∧
    standardize_reltype (some "maps to") = "MAPS_TO" ∧
    standardize_reltype (some "ATC - ATC") = "ATC_ATC" ∧
    standardize_reltype (some "_leading_sep") = "LEADING_SEP" ∧
    (∀ s : Option String, (standardize_reltype s).data.head? ≠ some '_' ∧
      (standardize_reltype s).data.getLast? ≠ some '_') :=
  ⟨by decide, by decide, by decide, by decide, by decide,
    standardize_reltype_no_boundary_underscore⟩

/-- Witness for the quantified clause of `standardize_reltype_spec`: at the
concrete input `"_trailing_sep_"` neither boundary of the result is an
underscore. -/
theorem standardize_reltype_spec_witness :
    (standardize_reltype (some "_trailing_sep_")).data.head? ≠ some '_' ∧
      (standardize_reltype (some "_trailing_sep_")).data.getLast? ≠ some '_' :=
  standardize_reltype_spec.2.2.2.2.2 (some "_trailing_sep_")

/-- C2: the relationship-type derivation inside the generated online-loading
Cypher does *not* coincide with the bulk transformer's
`standardize_reltype`: on the relationship id `"_leading_sep"` the bulk
path yields `"LEADING_SEP"` while the online statement's
`toupper(apoc.text.replace(…, '[^A-Za-z0-9_]+', '_'))` keeps the leading
underscore and yields `"_LEADING_SEP"`. -/
theorem cypherReltype_ne_standardize_reltype :
    standardize_reltype (some "_leading_sep") = "LEADING_SEP" ∧
    cypherReltype "_leading_sep" = "_LEADING_SEP" ∧
    cypherReltype "_leading_sep" ≠ standardize_reltype (some "_leading_sep") := by
  refine ⟨by decide, by decide, by decide⟩

/-- Reading the `domain_id` column of a source concept row. -/
theorem toRow_get_domain_id (c : ConceptSourceRow) :
    c.toRow.get "domain_id" = c.domain_id := rfl

/-- Reading the `standard_concept` column of a source concept row. -/
theorem toRow_get_standard_concept (c : ConceptSourceRow) :
    c.toRow.get "standard_concept" = c.standard_concept := rfl

/-- The emitted `IN_DOMAIN` row of one source concept row. -/
theorem inDomainRow_toRow (c : ConceptSourceRow) :
    inDomainRow c.toRow =
      [(":START_ID", c.concept_id), (":END_ID", c.domain_id),
       (":TYPE", "IN_DOMAIN")] := rfl

/-- The emitted `FROM_VOCABULARY` row of one source concept row. -/
theorem fromVocabularyRow_toRow (c : ConceptSourceRow) :
    fromVocabularyRow c.toRow =
      [(":START_ID", c.concept_id), (":END_ID", c.vocabulary_id),
       (":TYPE", "FROM_VOCABULARY")] := rfl

/-- C5: for every source concept row, the `:LABEL` field of the emitted
node row is exactly `"Concept"` joined with the sanitized domain label by a
semicolon, with `";Standard"` appended precisely when the
standard-concept flag equals exactly `"S"`; in particular domain
`"Drug/Device"` with empty flag yields `"Concept;DrugDevice"` and domain
`"Drug"` with flag `"S"` yields `"Concept;Drug;Standard"`. -/
theorem conceptNodeRow_label_spec :
    (∀ c : ConceptSourceRow,
      (conceptNodeRow c.toRow).get ":LABEL" =
        if c.standard_concept = "S"
        then "Concept;" ++ standardize_label (some c.domain_id) ++ ";Standard"
        else "Concept;" ++ standardize_label (some c.domain_id)) ∧
    (conceptNodeRow painKiller.toRow).get ":LABEL" = "Concept;DrugDevice" ∧
    (conceptNodeRow aspirin.toRow).get ":LABEL" = "Concept;Drug;Standard" := by
  refine ⟨?_, by decide, by decide⟩
  intro c
  show conceptLabel c.toRow = _
  unfold conceptLabel
  rw [toRow_get_domain_id, toRow_get_standard_concept]

/-- C6 counterexample: for the concrete source row `painKiller` (domain id
`"Drug/Device"`, vocabulary id `"RxNorm"`, concept-class id
`"Ingredient"`) the node row emitted by the bulk transformer has no
`domain_id`, `vocabulary_id` or `concept_class_id` column, and none of its
cells holds any of those three source values: the emitted row does not
carry them. -/
theorem conceptNodeRow_drops_context_columns :
    (conceptNodeRow painKiller.toRow).names.contains "domain_id" = false ∧
    (conceptNodeRow painKiller.toRow).names.contains "vocabulary_id" = false ∧
    (conceptNodeRow painKiller.toRow).names.contains "concept_class_id" = false ∧
    (conceptNodeRow painKiller.toRow).values.contains "Drug/Device" = false ∧
    (conceptNodeRow painKiller.toRow).values.contains "RxNorm" = false ∧
    (conceptNodeRow painKiller.toRow).values.contains "Ingredient" = false := by
  decide

/-- C6 (amended): every emitted concept node row carries exactly the nine
columns `:ID`, `name:string`, `concept_code:string`,
`standard_concept:string`, `invalid_reason:string`,
`valid_start_date:date`, `valid_end_date:date`, `synonyms:string[]` and
`:LABEL`, holding the source row's concept id, name, code, standard flag,
invalid reason, validity dates, synonyms list and the derived label set;
the domain id, vocabulary id and concept-class id are not among them. -/
theorem conceptNodeRow_columns_spec (c : ConceptSourceRow) :
    (conceptNodeRow c.toRow).names =
      [":ID", "name:string", "concept_code:string", "standard_concept:string",
       "invalid_reason:string", "valid_start_date:date", "valid_end_date:date",
       "synonyms:string[]", ":LABEL"] ∧
    (conceptNodeRow c.toRow).get ":ID" = c.concept_id ∧
    (conceptNodeRow c.toRow).get "name:string" = c.concept_name ∧
    (conceptNodeRow c.toRow).get "concept_code:string" = c.concept_code ∧
    (conceptNodeRow c.toRow).get "standard_concept:string" = c.standard_concept ∧
    (conceptNodeRow c.toRow).get "invalid_reason:string" = c.invalid_reason ∧
    (conceptNodeRow c.toRow).get "valid_start_date:date" = c.valid_start_date ∧
    (conceptNodeRow c.toRow).get "valid_end_date:date" = c.valid_end_date ∧
    (conceptNodeRow c.toRow).get "synonyms:string[]" = c.synonyms ∧
    (conceptNodeRow c.toRow).get ":LABEL" = conceptLabel c.toRow :=
  ⟨rfl, rfl, rfl, rfl, rfl, rfl, rfl, rfl, rfl, rfl⟩

/-- C7: the two contextual edge rows are built from the original,
pre-rename column values — over any chunk, the emitted `IN_DOMAIN` and
`FROM_VOCABULARY` rows are exactly the projections of the source rows'
`concept_id`, `domain_id` and `vocabulary_id` values — while the node
transformation (column renaming plus label derivation) erases the original
endpoint columns, so that looking them up on a transformed node row yields
the empty default, not the endpoint values. -/
theorem contextual_edges_use_original_values :
    (∀ chunk : List ConceptSourceRow,
      (chunk.map ConceptSourceRow.toRow).map inDomainRow =
        chunk.map (fun c =>
          [(":START_ID", c.concept_id), (":END_ID", c.domain_id),
           (":TYPE", "IN_DOMAIN")])) ∧
    (∀ chunk : List ConceptSourceRow,
      (chunk.map ConceptSourceRow.toRow).map fromVocabularyRow =
        chunk.map (fun c =>
          [(":START_ID", c.concept_id), (":END_ID", c.vocabulary_id),
           (":TYPE", "FROM_VOCABULARY")])) ∧
    (∀ c : ConceptSourceRow,
      (conceptNodeRow c.toRow).get "concept_id" = "" ∧
      (conceptNodeRow c.toRow).get "domain_id" = "" ∧
      (conceptNodeRow c.toRow).get "vocabulary_id" = "") := by
  refine ⟨?_, ?_, fun c => ⟨rfl, rfl, rfl⟩⟩
  · intro chunk
    induction chunk with
    | nil => rfl
    | cons a t ih => simp [ih, inDomainRow_toRow]
  · intro chunk
    induction chunk with
    | nil => rfl
    | cons a t ih => simp [ih, fromVocabularyRow_toRow]

/-- C1: the clear-previous-files loop removes a file only when its `paths`
key does not contain the substring `"in"` — a test meant to skip the five
`…_in` input keys that also matches the *output* keys `"domain_nodes"`
(`doma**in**`) and `"in_domain_rels"`.  `rels_in_domain.csv` is therefore
never removed and, being written in append mode, accumulates: over the
one-row fixture, a first run leaves it with a header line and one edge
line, and a second run over the same sources appends both again, so the
file contents after two runs differ from the contents after one. -/
theorem prepare_double_run_accumulates_in_domain :
    pyIn "in" "in_domain_rels" = true ∧
    pyIn "in" "domain_nodes" = true ∧
    (prepare_for_bulk_import 2 "import" "export" sampleSourceFS).2.read
        "import/rels_in_domain.csv" =
      some [[":START_ID", ":END_ID", ":TYPE"], ["1001", "Drug", "IN_DOMAIN"]] ∧
    (prepare_for_bulk_import 2 "import" "export"
        (prepare_for_bulk_import 2 "import" "export" sampleSourceFS).2).2.read
        "import/rels_in_domain.csv" =
      some ([[":START_ID", ":END_ID", ":TYPE"], ["1001", "Drug", "IN_DOMAIN"]] ++
            [[":START_ID", ":END_ID", ":TYPE"], ["1001", "Drug", "IN_DOMAIN"]]) ∧
    (prepare_for_bulk_import 2 "import" "export"
        (prepare_for_bulk_import 2 "import" "export" sampleSourceFS).2).2.read
        "import/rels_in_domain.csv" ≠
      (prepare_for_bulk_import 2 "import" "export" sampleSourceFS).2.read
        "import/rels_in_domain.csv" := by
  refine ⟨by decide, by decide, by decide, by decide, by decide⟩

/-- C8: when the configured source directory contains no CSV file,
`prepare_for_bulk_import` performs no work — the file system, directories
included, is returned unchanged — and the result is `None` (a non-error,
empty-result outcome), not an exception. -/
theorem prepare_no_sources_is_noop (chunk_size : Nat)
    (import_dir source_dir : String) (fs : FS)
    (h : globCsv fs source_dir = []) :
    prepare_for_bulk_import chunk_size import_dir source_dir fs =
      (.ok none, fs) := by
  unfold prepare_for_bulk_import
  simp [h]

/-- Witness for `prepare_no_sources_is_noop`: an export directory holding
only a non-CSV file triggers the no-work branch and leaves the state
untouched. -/
theorem prepare_no_sources_is_noop_witness :
    globCsv ⟨[("export/readme.txt", [])], []⟩ "export" = [] ∧
    prepare_for_bulk_import 5 "import" "export"
        ⟨[("export/readme.txt", [])], []⟩ =
      (.ok none, ⟨[("export/readme.txt", [])], []⟩) :=
  ⟨by decide, prepare_no_sources_is_noop 5 "import" "export" _ (by decide)⟩

/-- When every statement succeeds, the executor attempts all of them in
order and raises nothing. -/
theorem execute_queries_all_ok (run : CypherQuery → Except String Unit)
    (qs : List CypherQuery) (h : ∀ q ∈ qs, run q = .ok ()) :
    execute_queries run false qs = (qs, none) := by
  induction qs with
  | nil => rfl
  | cons q t ih =>
    have hq := h q (List.mem_cons_self q t)
    have ht := ih (fun a ha => h a (List.mem_cons_of_mem q ha))
    simp [execute_queries, hq, ht]

/-- Execution stops at the first failing statement: the statements before
it all run, the failing one is attempted, its error is propagated, and
nothing after it is attempted. -/
theorem execute_queries_first_error (run : CypherQuery → Except String Unit)
    (as bs : List CypherQuery) (q : CypherQuery) (msg : String)
    (hok : ∀ a ∈ as, run a = .ok ()) (hq : run q = .error msg) :
    execute_queries run false (as ++ q :: bs) = (as ++ [q], some msg) := by
  induction as with
  | nil => simp [execute_queries, hq]
  | cons a t ih =>
    have ha := hok a (List.mem_cons_self a t)
    have ht := ih (fun x hx => hok x (List.mem_cons_of_mem a hx))
    simp [execute_queries, ha, ht]

/-- C9: for every batch size, `get_loading_queries` returns exactly five
statements, in the fixed order domains, vocabularies, concepts (batched),
semantic relationships (batched), ancestors (batched); and the query
executor used by `run_load_csv` runs a statement list strictly in order —
when all statements succeed it attempts all of them and raises nothing,
and otherwise it stops at the first failing statement and propagates that
failure. -/
theorem get_loading_queries_spec :
    (∀ batch_size : Nat,
      (get_loading_queries batch_size).length = 5 ∧
      get_loading_queries batch_size =
        [.loadDomains "file:///domain.csv",
         .loadVocabularies "file:///vocabulary.csv",
         .loadConcepts "file:///concepts_optimized.csv" batch_size,
         .loadRelationships "file:///concept_relationship.csv" batch_size,
         .loadAncestors "file:///concept_ancestor.csv" batch_size]) ∧
    (∀ (run : CypherQuery → Except String Unit) (qs : List CypherQuery),
      (∀ q ∈ qs, run q = .ok ()) → execute_queries run false qs = (qs, none)) ∧
    (∀ (run : CypherQuery → Except String Unit) (as bs : List CypherQuery)
        (q : CypherQuery) (msg : String),
      (∀ a ∈ as, run a = .ok ()) → run q = .error msg →
      execute_queries run false (as ++ q :: bs) = (as ++ [q], some msg)) :=
  ⟨fun _ => ⟨rfl, rfl⟩, execute_queries_all_ok, execute_queries_first_error⟩

/-- Witness for `get_loading_queries_spec`: against a store failing at the
concept statement, executing the five generated queries attempts exactly
the first three, in order, and propagates the error. -/
theorem get_loading_queries_spec_witness :
    execute_queries runConceptsFail false (get_loading_queries 7) =
      ([.loadDomains "file:///domain.csv",
        .loadVocabularies "file:///vocabulary.csv",
        .loadConcepts "file:///concepts_optimized.csv" 7],
       some "constraint violation") := by
  have h := get_loading_queries_spec.2.2 runConceptsFail
    [.loadDomains "file:///domain.csv", .loadVocabularies "file:///vocabulary.csv"]
    [.loadRelationships "file:///concept_relationship.csv" 7,
     .loadAncestors "file:///concept_ancestor.csv" 7]
    (.loadConcepts "file:///concepts_optimized.csv" 7) "constraint violation"
    (by
      intro a ha
      rcases List.mem_cons.mp ha with h1 | h1
      · subst h1; rfl
      · rcases List.mem_cons.mp h1 with h2 | h2
        · subst h2; rfl
        · cases h2)
    rfl
  exact h

/-- C10: with no CSV file in the export directory, `run_load_csv` raises
immediately: the outcome is an error and the effect trace is empty — no
connection is opened, the database is not cleared, no constraint is
created and no loading statement is run — whatever the batch size, the
outcomes of the clearing and constraint steps, and the store behaviour
would have been. -/
theorem run_load_csv_no_sources_raises (batch_size : Option Nat)
    (clearResult constraintsResult : Except String Unit)
    (run : CypherQuery → Except String Unit) :
    run_load_csv [] batch_size clearResult constraintsResult run =
      (.error
        "No CSV files found in the export directory. Please run the 'extract' command first.",
        []) := rfl

end OmopNeo4j
